import Mathlib

/-!
Verification of the blogicum request handlers (`blog/views.py`, `blog/forms.py`)
against their natural-language specification.

The handlers are embedded shallowly: the object-relational store is a `Store`
of record lists, each view function becomes a Lean function from the store,
the acting viewer, the request data and the URL arguments to a response
(and, for mutating views, a new store).  The data model itself
(`blog/models.py`) is not part of the reviewed sources, so the record shapes
are modelled from the specification's data-model section.
-/

namespace Blogicum

/-- Modelled from the spec: a User has an identity (unique username) and
display fields; `id` is the primary key used for foreign keys. -/
structure User where
  id : Nat
  username : String
deriving DecidableEq, Repr

/-- Modelled from the spec: a Category is a named grouping with a unique slug
and a published flag. -/
structure Category where
  id : Nat
  title : String
  slug : String
  is_published : Bool
deriving DecidableEq, Repr

/-- Modelled from the spec: a Post has title, body, publish timestamp,
published flag, optional attached image, exactly one author (User id) and
exactly one category (Category id). -/
structure Post where
  id : Nat
  title : String
  text : String
  pub_date : Int
  is_published : Bool
  image : Option String
  author : Nat
  category : Nat
deriving DecidableEq, Repr

/-- Modelled from the spec: a Comment has text, exactly one author (User id)
and exactly one post (Post id).  The source model class is named `Comments`. -/
structure Comments where
  id : Nat
  text : String
  author : Nat
  post : Nat
deriving DecidableEq, Repr

/-- The external data store: lists of persisted records plus the
auto-increment counters the store uses for new primary keys. -/
structure Store where
  users : List User
  categories : List Category
  posts : List Post
  comments : List Comments
  nextPostId : Nat
  nextCommentId : Nat
deriving DecidableEq, Repr

/-- `get_object_or_404(Post, id=id)`: the post with the given id, if any. -/
def getPost (s : Store) (id : Nat) : Option Post :=
  s.posts.find? (fun p => p.id == id)

/-- `get_object_or_404(Comments, id=cid)`: the comment with the given id. -/
def getComment (s : Store) (cid : Nat) : Option Comments :=
  s.comments.find? (fun c => c.id == cid)

/-- `get_object_or_404(User, username=username)`. -/
def getUserByName (s : Store) (username : String) : Option User :=
  s.users.find? (fun u => u.username == username)

/-- `get_object_or_404(Category, slug=category_slug, is_published=True)`. -/
def getPublishedCategory (s : Store) (slug : String) : Option Category :=
  s.categories.find? (fun c => c.slug == slug && c.is_published)

/-- Resolution of `post.category.is_published` through the category FK. -/
def categoryPublished (s : Store) (cid : Nat) : Bool :=
  match s.categories.find? (fun c => c.id == cid) with
  | some c => c.is_published
  | none => false

/-- `post.comments`: the comments attached to the post with id `pid`. -/
def commentsOf (s : Store) (pid : Nat) : List Comments :=
  s.comments.filter (fun c => c.post == pid)

/-- `order_by('-pub_date')`: newest first, i.e. the second post's timestamp
is at most the first's. -/
def postOrder (a b : Post) : Prop := b.pub_date ≤ a.pub_date

instance : DecidableRel postOrder :=
  fun a b => inferInstanceAs (Decidable (b.pub_date ≤ a.pub_date))

instance : IsTotal Post postOrder := ⟨fun a b => le_total b.pub_date a.pub_date⟩

instance : IsTrans Post postOrder := ⟨fun _ _ _ h1 h2 => le_trans h2 h1⟩

/-- The store's `order_by('-pub_date')` primitive. -/
def sortDesc (l : List Post) : List Post := l.insertionSort postOrder

/-- `PAGINATOR_PAGES = 10`. -/
def PAGINATOR_PAGES : Nat := 10

/-- The external paginator's page count: `ceil(max 1 count / per)`. -/
def numPages (count per : Nat) : Nat := (max 1 count + per - 1) / per

/-- The external paginator's `get_page`: a missing or non-integer page
number falls back to page 1, an out-of-range number to the last page, and
page `n` holds the items from `(n-1)*per` (inclusive) to `n*per`
(exclusive). -/
def getPage {α : Type} (l : List α) (per : Nat) (req : Option Nat) : List α :=
  let np := numPages l.length per
  let n := match req with
    | none => 1
    | some k => if k < 1 || np < k then np else k
  (l.drop ((n - 1) * per)).take per

/-- Response of a listing view: a rendered page of posts together with the
paginator's total item count, or not-found. -/
inductive ListResponse where
  | page (items : List Post) (total : Nat)
  | notFound
deriving DecidableEq, Repr

/-- Response of the post-detail view. -/
inductive DetailResponse where
  | render (post : Post) (comments : List Comments)
  | notFound
deriving DecidableEq, Repr

/-- Response of a mutating view: a rendered form template, a redirect to a
post's detail page, a redirect to a profile page, or not-found. -/
inductive Response where
  | renderForm (template : String)
  | redirectPostDetail (id : Nat)
  | redirectProfile (username : String)
  | notFound
deriving DecidableEq, Repr

/-- HTTP request method as the handlers distinguish it. -/
inductive Method where
  | GET
  | POST
  | other
deriving DecidableEq, Repr

/-- The filter of the `index` view:
`pub_date__lte=now, is_published=True, category__is_published=True`. -/
def indexFilter (s : Store) (now : Int) (p : Post) : Bool :=
  decide (p.pub_date ≤ now) && p.is_published && categoryPublished s p.category

/-- `index(request)`: global feed of visible posts, newest first, paginated. -/
def index (s : Store) (now : Int) (req : Option Nat) : ListResponse :=
  let posts := sortDesc (s.posts.filter (indexFilter s now))
  .page (getPage posts PAGINATOR_PAGES req) posts.length

/-- `post_detail(request, id)`.  The viewer is `some uid` for an
authenticated user and `none` for the anonymous user (which never equals a
post's author). -/
def post_detail (s : Store) (now : Int) (viewer : Option Nat) (id : Nat) :
    DetailResponse :=
  match getPost s id with
  | none => .notFound
  | some post =>
    if now < post.pub_date ∧ some post.author ≠ viewer then .notFound
    else if post.is_published = false ∧ some post.author ≠ viewer then .notFound
    else if categoryPublished s post.category = false ∧ some post.author ≠ viewer then
      .notFound
    else .render post (commentsOf s id)

/-- The filter of the `category_posts` view:
`category=category, is_published=True, pub_date__lte=now`. -/
def categoryFilter (cat : Category) (now : Int) (p : Post) : Bool :=
  p.category == cat.id && p.is_published && decide (p.pub_date ≤ now)

/-- `category_posts(request, category_slug)`. -/
def category_posts (s : Store) (now : Int) (slug : String) (req : Option Nat) :
    ListResponse :=
  match getPublishedCategory s slug with
  | none => .notFound
  | some category =>
    let posts := sortDesc (s.posts.filter (categoryFilter category now))
    .page (getPage posts PAGINATOR_PAGES req) posts.length

/-- The filter of the `profile` view, branching on whether the viewer is the
profile owner; the non-owner branch uses the strict `pub_date__lt=now`. -/
def profileFilter (s : Store) (now : Int) (viewer : Option Nat) (u : User)
    (p : Post) : Bool :=
  if viewer == some u.id then p.author == u.id
  else p.author == u.id && p.is_published && categoryPublished s p.category
        && decide (p.pub_date < now)

/-- `profile(request, username)`. -/
def profile (s : Store) (now : Int) (viewer : Option Nat) (username : String)
    (req : Option Nat) : ListResponse :=
  match getUserByName s username with
  | none => .notFound
  | some user =>
    let posts := sortDesc (s.posts.filter (profileFilter s now viewer user))
    .page (getPage posts PAGINATOR_PAGES req) posts.length

/-- Submitted comment-form payload.  `CommentForm` declares only the `text`
field; any `author` or `post` values present in the payload are carried here
so that theorems can show the handlers never read them. -/
structure CommentSubmission where
  text : String
  author : Option Nat
  post : Option Nat
deriving DecidableEq, Repr

/-- Modelled from the spec: the external form-validation component for
`CommentForm`.  Its single bound field is the required text field; the form
is valid iff that text is nonempty. -/
def commentFormValid (d : CommentSubmission) : Bool := !(d.text == "")

/-- Submitted post-form payload.  `PostForm` excludes the `author` field; a
supplied `author` value is carried here so that theorems can show the
handlers never read it. -/
structure PostSubmission where
  title : String
  text : String
  pub_date : Int
  is_published : Bool
  image : Option String
  category : Nat
  author : Option Nat
deriving DecidableEq, Repr

/-- Modelled from the spec: the external form-validation component for
`PostForm`.  Required character fields must be nonempty and the chosen
category must exist in the store. -/
def postFormValid (s : Store) (d : PostSubmission) : Bool :=
  !(d.title == "") && !(d.text == "")
    && s.categories.any (fun c => c.id == d.category)

/-- Saving a new post: appended with the store's next auto-increment id. -/
def Store.insertPost (s : Store) (p : Post) : Store :=
  { s with posts := s.posts ++ [p], nextPostId := s.nextPostId + 1 }

/-- Saving a new comment: appended with the store's next auto-increment id. -/
def Store.insertComment (s : Store) (c : Comments) : Store :=
  { s with comments := s.comments ++ [c], nextCommentId := s.nextCommentId + 1 }

/-- Modelled from the spec: `post.delete()` removes the post and cascades to
delete its comments (a Post exclusively owns its Comments). -/
def Store.removePost (s : Store) (pid : Nat) : Store :=
  { s with posts := s.posts.filter (fun p => !(p.id == pid)),
           comments := s.comments.filter (fun c => !(c.post == pid)) }

/-- `comment.delete()`. -/
def Store.removeComment (s : Store) (cid : Nat) : Store :=
  { s with comments := s.comments.filter (fun c => !(c.id == cid)) }

/-- `form.save()` on a bound `PostForm` with `instance=post`: overwrite the
form's fields of the stored post, leaving `id` and `author` untouched. -/
def Store.updatePost (s : Store) (pid : Nat) (d : PostSubmission) : Store :=
  { s with posts := s.posts.map (fun p =>
      if p.id == pid then
        { p with title := d.title, text := d.text,
                 pub_date := d.pub_date, is_published := d.is_published,
                 image := d.image, category := d.category }
      else p) }

/-- `form.save()` on a bound `CommentForm` with `instance=comment`. -/
def Store.updateComment (s : Store) (cid : Nat) (text : String) : Store :=
  { s with comments := s.comments.map (fun c =>
      if c.id == cid then { c with text := text } else c) }

/-- `create_post(request)` (login required, so `user` is authenticated).
`data = none` models an unbound form (a GET request). -/
def create_post (s : Store) (user : User) (data : Option PostSubmission) :
    Response × Store :=
  match data with
  | none => (.renderForm "blog/create.html", s)
  | some d =>
    if postFormValid s d then
      (.redirectProfile user.username,
       s.insertPost
         { id := s.nextPostId, title := d.title, text := d.text,
           pub_date := d.pub_date, is_published := d.is_published,
           image := d.image, author := user.id, category := d.category })
    else (.renderForm "blog/create.html", s)

/-- `edit_post(request, id)`. -/
def edit_post (s : Store) (user : User) (data : Option PostSubmission)
    (id : Nat) : Response × Store :=
  match getPost s id with
  | none => (.notFound, s)
  | some post =>
    if !(user.id == post.author) then (.redirectPostDetail id, s)
    else match data with
      | some d =>
        if postFormValid s d then (.redirectPostDetail id, s.updatePost id d)
        else (.renderForm "blog/create.html", s)
      | none => (.renderForm "blog/create.html", s)

/-- `delete_post(request, id)`. -/
def delete_post (s : Store) (user : User) (method : Method) (id : Nat) :
    Response × Store :=
  match getPost s id with
  | none => (.notFound, s)
  | some post =>
    if !(post.author == user.id) then (.redirectPostDetail id, s)
    else match method with
      | .GET => (.renderForm "blog/create.html", s)
      | .POST => (.redirectProfile user.username, s.removePost id)
      | .other => (.redirectPostDetail id, s)

/-- `add_comment(request, id)`.  `data = none` models an unbound form. -/
def add_comment (s : Store) (user : User) (data : Option CommentSubmission)
    (id : Nat) : Response × Store :=
  match getPost s id with
  | none => (.notFound, s)
  | some post =>
    match data with
    | some d =>
      if commentFormValid d then
        (.redirectPostDetail id,
         s.insertComment
           { id := s.nextCommentId, text := d.text,
             author := user.id, post := post.id })
      else (.redirectPostDetail id, s)
    | none => (.redirectPostDetail id, s)

/-- `edit_comment(request, id, comment_id)`. -/
def edit_comment (s : Store) (user : User) (data : Option CommentSubmission)
    (id comment_id : Nat) : Response × Store :=
  match getComment s comment_id with
  | none => (.notFound, s)
  | some comment =>
    if !(user.id == comment.author) then (.redirectPostDetail id, s)
    else match data with
      | some d =>
        if commentFormValid d then
          (.redirectPostDetail id, s.updateComment comment_id d.text)
        else (.renderForm "blog/comment.html", s)
      | none => (.renderForm "blog/comment.html", s)

/-- `delete_comment(request, id, slug)`: the comment is looked up by `slug`
and the non-author redirect target is built as `id=slug`, exactly as in the
source. -/
def delete_comment (s : Store) (user : User) (method : Method)
    (id slug : Nat) : Response × Store :=
  match getComment s slug with
  | none => (.notFound, s)
  | some comment =>
    if !(user.id == comment.author) then (.redirectPostDetail slug, s)
    else match method with
      | .POST => (.redirectPostDetail id, s.removeComment slug)
      | .GET => (.renderForm "blog/comment.html", s)
      | .other => (.redirectPostDetail id, s)

/-- The spec's visibility predicate (section 4.1): `is_published AND
category.is_published AND pub_date <= now`. -/
def is_visible (s : Store) (now : Int) (p : Post) : Bool :=
  p.is_published && categoryPublished s p.category && decide (p.pub_date ≤ now)

/-! Helper lemmas shared by the claim theorems. -/

theorem getPost_id {s : Store} {id : Nat} {p : Post}
    (hp : getPost s id = some p) : p.id = id := by
  have h := List.find?_some (p := fun q : Post => q.id == id)
    (by simpa [getPost] using hp)
  simpa using h

theorem post_detail_eq (s : Store) (now : Int) (viewer : Option Nat) (id : Nat)
    (p : Post) (hp : getPost s id = some p) :
    post_detail s now viewer id =
      if is_visible s now p = true ∨ viewer = some p.author then
        .render p (commentsOf s id)
      else .notFound := by
  unfold post_detail
  rw [hp]
  by_cases hv : viewer = some p.author
  · simp [hv]
  · have hne : some p.author ≠ viewer := fun h => hv h.symm
    by_cases h1 : now < p.pub_date
    · have hgt : ¬ (p.pub_date ≤ now) := not_le.mpr h1
      simp [is_visible, h1, hne, hv, hgt]
    · by_cases h2 : p.is_published
      · by_cases h3 : categoryPublished s p.category
        · have hle : p.pub_date ≤ now := not_lt.mp h1
          simp [is_visible, h1, h2, h3, hne, hv, hle]
        · simp [is_visible, h1, h2, h3, hne, hv]
      · simp [is_visible, h1, h2, hne, hv]

theorem add_comment_valid_effect (s : Store) (u : User) (d : CommentSubmission)
    (id : Nat) (p : Post) (hp : getPost s id = some p)
    (hv : commentFormValid d = true) :
    add_comment s u (some d) id =
      (.redirectPostDetail id,
       s.insertComment ⟨s.nextCommentId, d.text, u.id, id⟩) := by
  have hid : p.id = id := getPost_id hp
  unfold add_comment
  rw [hp]
  simp [hv, hid]

theorem commentsOf_insertComment (s : Store) (c : Comments) (pid : Nat)
    (hc : c.post = pid) :
    commentsOf (s.insertComment c) pid = commentsOf s pid ++ [c] := by
  simp [commentsOf, Store.insertComment, List.filter_append, hc]

theorem getPage_length_le {α : Type} (l : List α) (per : Nat)
    (req : Option Nat) : (getPage l per req).length ≤ per := by
  simp only [getPage]
  exact List.length_take_le _ _

theorem sortDesc_length (l : List Post) : (sortDesc l).length = l.length :=
  (List.perm_insertionSort _ l).length_eq

theorem sortDesc_filter_length (l : List Post) (f : Post → Bool) :
    (sortDesc (l.filter f)).length = l.countP f := by
  rw [sortDesc_length, List.countP_eq_length_filter]

/-! The claim theorems. -/

/-- Claim C1: the detail view renders the post exactly when the post passes
the visibility predicate or the viewer is its author, and otherwise returns
not-found — never any other (permission-denied) result. -/
theorem post_detail_visibility (s : Store) (now : Int) (viewer : Option Nat)
    (id : Nat) (p : Post) (hp : getPost s id = some p) :
    post_detail s now viewer id =
      if is_visible s now p = true ∨ viewer = some p.author then
        .render p (commentsOf s id)
      else .notFound :=
  post_detail_eq s now viewer id p hp

def pC1 : Post := ⟨1, "Title", "Body", 0, true, none, 1, 1⟩

def sC1 : Store :=
  ⟨[⟨1, "alice"⟩, ⟨2, "bob"⟩],
   [⟨1, "Cat", "cat", true⟩],
   [pC1],
   [⟨1, "hi", 2, 1⟩],
   2, 2⟩

/-- Claim C1 witness: the theorem applied to a concrete store at a concrete
post, viewer and time. -/
theorem post_detail_visibility_witness :
    getPost sC1 1 = some pC1 ∧
    post_detail sC1 3 none 1 =
      (if is_visible sC1 3 pC1 = true ∨ (none : Option Nat) = some pC1.author then
        .render pC1 (commentsOf sC1 1)
      else .notFound) :=
  ⟨by decide, post_detail_visibility sC1 3 none 1 pC1 (by decide)⟩

def cC2 : Comments := ⟨2, "a comment", 10, 1⟩

def sC2 : Store :=
  ⟨[⟨10, "ann"⟩, ⟨20, "mallory"⟩],
   [⟨1, "Cat", "cat", true⟩],
   [⟨1, "Post one", "body", 0, true, none, 10, 1⟩],
   [cC2],
   2, 3⟩

/-- Claim C2: evaluation at the failing input.  Comment 2 belongs to post 1
and is authored by user 10; the non-author viewer 20 requesting deletion of
comment 2 under post 1 is redirected to the post-detail page keyed by the
comment id 2 — not to the detail view of the comment's post (post 1) —
while the record stays unchanged. -/
theorem delete_comment_misredirect :
    getComment sC2 2 = some cC2 ∧ cC2.post = 1 ∧ cC2.author ≠ 20 ∧
    delete_comment sC2 ⟨20, "mallory"⟩ .POST 1 2 = (.redirectPostDetail 2, sC2) ∧
    (2 : Nat) ≠ 1 := by decide

def pC3 : Post := ⟨1, "Boundary", "body", 0, true, none, 1, 1⟩

def sC3 : Store :=
  ⟨[⟨1, "alice"⟩, ⟨2, "bob"⟩],
   [⟨1, "Cat", "cat", true⟩],
   [pC3],
   [],
   2, 1⟩

/-- Claim C3 counterexample: at `now = 0`, alice's post with `pub_date = 0`
satisfies the spec's visibility predicate (`pub_date ≤ now`), yet the
profile feed shown to the non-owner bob is empty — the handler filters with
the strict `pub_date__lt=now`. -/
theorem profile_boundary_cex :
    pC3 ∈ sC3.posts ∧ pC3.author = 1 ∧ is_visible sC3 0 pC3 = true ∧
    getUserByName sC3 "alice" = some ⟨1, "alice"⟩ ∧
    profile sC3 0 (some 2) "alice" none = .page [] 0 := by decide

/-- Claim C3 (amended): the non-owner profile feed contains exactly the
owner's posts that are published, in a published category, and whose publish
time is strictly before now (the code uses `pub_date__lt`, not `lte`); the
owner sees all of their own posts; both feeds are ordered by publish time
descending. -/
theorem profile_feed_spec (s : Store) (now : Int) (viewer : Option Nat)
    (username : String) (u : User) (req : Option Nat)
    (hu : getUserByName s username = some u) :
    ∃ feed,
      profile s now viewer username req =
        .page (getPage feed PAGINATOR_PAGES req) feed.length
      ∧ List.Sorted postOrder feed
      ∧ ∀ p, p ∈ feed ↔ p ∈ s.posts ∧
          (if viewer = some u.id then p.author = u.id
           else p.author = u.id ∧ p.is_published = true
                ∧ categoryPublished s p.category = true ∧ p.pub_date < now) := by
  refine ⟨sortDesc (s.posts.filter (profileFilter s now viewer u)), ?_,
    List.sorted_insertionSort _ _, ?_⟩
  · unfold profile
    rw [hu]
  · intro p
    rw [sortDesc, List.mem_insertionSort, List.mem_filter]
    by_cases hv : viewer = some u.id
    · simp [profileFilter, hv]
    · simp [profileFilter, hv, and_assoc]

def uC3 : User := ⟨1, "alice"⟩

/-- Claim C3 witness: the amended theorem applied to a concrete store for
the owner viewing their own profile. -/
theorem profile_feed_spec_witness :
    ∃ feed,
      profile sC3 0 (some 1) "alice" none =
        .page (getPage feed PAGINATOR_PAGES none) feed.length
      ∧ List.Sorted postOrder feed
      ∧ ∀ p, p ∈ feed ↔ p ∈ sC3.posts ∧
          (if (some 1 : Option Nat) = some uC3.id then p.author = uC3.id
           else p.author = uC3.id ∧ p.is_published = true
                ∧ categoryPublished sC3 p.category = true ∧ p.pub_date < 0) :=
  profile_feed_spec sC3 0 (some 1) "alice" uC3 none (by decide)

/-- Claim C4: a valid comment submission by an authenticated user appends
exactly one comment whose author is the submitting user and whose post is
the target post, whatever `author`/`post` values the payload `d` carries
(the handler never reads them); the post's comment count grows by one. -/
theorem add_comment_creates_one (s : Store) (u : User) (d : CommentSubmission)
    (id : Nat) (p : Post) (hp : getPost s id = some p)
    (hv : commentFormValid d = true) :
    (add_comment s u (some d) id).2.comments
      = s.comments ++ [⟨s.nextCommentId, d.text, u.id, id⟩]
    ∧ (commentsOf (add_comment s u (some d) id).2 id).length
      = (commentsOf s id).length + 1 := by
  rw [add_comment_valid_effect s u d id p hp hv]
  refine ⟨rfl, ?_⟩
  rw [commentsOf_insertComment s ⟨s.nextCommentId, d.text, u.id, id⟩ id rfl]
  simp

def dC4 : CommentSubmission := ⟨" nice post ", some 999, some 42⟩

def sC4 : Store :=
  ⟨[⟨1, "alice"⟩, ⟨2, "bob"⟩],
   [⟨1, "Cat", "cat", true⟩],
   [⟨1, "Title", "Body", 0, true, none, 1, 1⟩],
   [⟨1, "first", 1, 1⟩],
   2, 2⟩

/-- Claim C4 witness: the theorem applied to a concrete store, with a
payload carrying a forged author id (999) and a forged post id (42) that
the stored comment does not take over. -/
theorem add_comment_creates_one_witness :
    (add_comment sC4 ⟨2, "bob"⟩ (some dC4) 1).2.comments
      = sC4.comments ++ [⟨sC4.nextCommentId, dC4.text, 2, 1⟩]
    ∧ (commentsOf (add_comment sC4 ⟨2, "bob"⟩ (some dC4) 1).2 1).length
      = (commentsOf sC4 1).length + 1 :=
  add_comment_creates_one sC4 ⟨2, "bob"⟩ dC4 1
    ⟨1, "Title", "Body", 0, true, none, 1, 1⟩ (by decide) (by decide)

/-- A post-form payload with its (form-excluded) author field erased. -/
def PostSubmission.eraseAuthor (d : PostSubmission) : PostSubmission :=
  { d with author := none }

/-- Claim C5: the stored post's author comes from the session user; two
submissions that differ only in the payload's author field produce the same
result, and a valid submission stores a post whose author is the session
user's id. -/
theorem create_post_session_author (s : Store) (u : User)
    (d1 d2 : PostSubmission) (h : d1.eraseAuthor = d2.eraseAuthor) :
    create_post s u (some d1) = create_post s u (some d2)
    ∧ (postFormValid s d1 = true →
        (create_post s u (some d1)).2.posts = s.posts ++
          [{ id := s.nextPostId, title := d1.title, text := d1.text,
             pub_date := d1.pub_date, is_published := d1.is_published,
             image := d1.image, author := u.id, category := d1.category }]) := by
  obtain ⟨t1, x1, pd1, ip1, im1, c1, a1⟩ := d1
  obtain ⟨t2, x2, pd2, ip2, im2, c2, a2⟩ := d2
  simp only [PostSubmission.eraseAuthor, PostSubmission.mk.injEq, and_true] at h
  obtain ⟨ht, htx, hpd, hip, him, hc⟩ := h
  subst ht htx hpd hip him hc
  refine ⟨rfl, fun hvld => ?_⟩
  simp [create_post, hvld, Store.insertPost]

def dC5a : PostSubmission := ⟨"My post", "Some text", 7, true, none, 1, some 999⟩

def dC5b : PostSubmission := ⟨"My post", "Some text", 7, true, none, 1, none⟩

def sC5 : Store :=
  ⟨[⟨1, "alice"⟩],
   [⟨1, "Cat", "cat", true⟩],
   [],
   [],
   1, 1⟩

/-- Claim C5 witness: two concrete submissions differing only in a forged
author field (999 vs absent) yield identical results, and the stored post's
author is the session user's id. -/
theorem create_post_session_author_witness :
    dC5a.eraseAuthor = dC5b.eraseAuthor ∧ postFormValid sC5 dC5a = true ∧
    create_post sC5 ⟨1, "alice"⟩ (some dC5a) = create_post sC5 ⟨1, "alice"⟩ (some dC5b)
    ∧ (create_post sC5 ⟨1, "alice"⟩ (some dC5a)).2.posts = sC5.posts ++
        [{ id := sC5.nextPostId, title := dC5a.title, text := dC5a.text,
           pub_date := dC5a.pub_date, is_published := dC5a.is_published,
           image := dC5a.image, author := 1, category := dC5a.category }] :=
  ⟨by decide, by decide,
   (create_post_session_author sC5 ⟨1, "alice"⟩ dC5a dC5b (by decide)).1,
   (create_post_session_author sC5 ⟨1, "alice"⟩ dC5a dC5b (by decide)).2 (by decide)⟩

/-- Claim C6: the category feed is not-found when every category carrying
the requested slug is unpublished (in particular when none exists);
otherwise it pages exactly the posts of the found category that are
published with publish time not after now, ordered by publish time
descending. -/
theorem category_posts_spec (s : Store) (now : Int) (slug : String)
    (req : Option Nat) :
    ((∀ c ∈ s.categories, c.slug = slug → c.is_published = false) →
        category_posts s now slug req = .notFound)
    ∧ (∀ cat, getPublishedCategory s slug = some cat →
        ∃ feed,
          category_posts s now slug req =
            .page (getPage feed PAGINATOR_PAGES req) feed.length
          ∧ List.Sorted postOrder feed
          ∧ ∀ p, p ∈ feed ↔ p ∈ s.posts ∧ p.category = cat.id
                ∧ p.is_published = true ∧ p.pub_date ≤ now) := by
  constructor
  · intro hnone
    have hfind : getPublishedCategory s slug = none := by
      rw [getPublishedCategory, List.find?_eq_none]
      intro c hc
      simp only [Bool.and_eq_true, beq_iff_eq, not_and]
      intro hslug
      simp [hnone c hc hslug]
    simp [category_posts, hfind]
  · intro cat hcat
    refine ⟨sortDesc (s.posts.filter (categoryFilter cat now)), ?_,
      List.sorted_insertionSort _ _, ?_⟩
    · unfold category_posts
      rw [hcat]
    · intro p
      rw [sortDesc, List.mem_insertionSort, List.mem_filter]
      simp [categoryFilter, and_assoc]

def catC6 : Category := ⟨1, "News", "news", true⟩

def sC6 : Store :=
  ⟨[⟨1, "alice"⟩],
   [catC6, ⟨2, "Hidden", "hidden", false⟩],
   [⟨1, "Old", "b", -1, true, none, 1, 1⟩, ⟨2, "Future", "b", 9, true, none, 1, 1⟩],
   [],
   3, 1⟩

/-- Claim C6 witness: the theorem applied to a concrete store, for a
published category found by its slug. -/
theorem category_posts_spec_witness :
    getPublishedCategory sC6 "news" = some catC6 ∧
    ∃ feed,
      category_posts sC6 0 "news" none =
        .page (getPage feed PAGINATOR_PAGES none) feed.length
      ∧ List.Sorted postOrder feed
      ∧ ∀ p, p ∈ feed ↔ p ∈ sC6.posts ∧ p.category = catC6.id
            ∧ p.is_published = true ∧ p.pub_date ≤ 0 :=
  ⟨by decide, (category_posts_spec sC6 0 "news" none).2 catC6 (by decide)⟩

/-- The validity the add-comment handler sees: a bound form with valid text. -/
def submittedCommentValid : Option CommentSubmission → Bool
  | some d => commentFormValid d
  | none => false

/-- Claim C7: for an existing post the add-comment handler redirects to that
post's detail view in every case, and when the submission is not valid (or
the form is unbound) the store is left untouched, with no error response. -/
theorem add_comment_always_redirects (s : Store) (u : User)
    (data : Option CommentSubmission) (id : Nat) (p : Post)
    (hp : getPost s id = some p) :
    (add_comment s u data id).1 = .redirectPostDetail id
    ∧ (submittedCommentValid data = false → (add_comment s u data id).2 = s) := by
  unfold add_comment
  rw [hp]
  match data with
  | none => exact ⟨rfl, fun _ => rfl⟩
  | some d =>
    by_cases hv : commentFormValid d = true
    · simp [hv, submittedCommentValid]
    · simp only [Bool.not_eq_true] at hv
      simp [hv, submittedCommentValid]

/-- Claim C7 witness: the theorem applied to a concrete store with an
invalid (empty-text) submission: redirect to the detail view, store kept. -/
theorem add_comment_always_redirects_witness :
    (add_comment sC4 ⟨2, "bob"⟩ (some ⟨"", none, none⟩) 1).1 =
      .redirectPostDetail 1
    ∧ (submittedCommentValid (some ⟨"", none, none⟩) = false →
        (add_comment sC4 ⟨2, "bob"⟩ (some ⟨"", none, none⟩) 1).2 = sC4) :=
  add_comment_always_redirects sC4 ⟨2, "bob"⟩ (some ⟨"", none, none⟩) 1
    ⟨1, "Title", "Body", 0, true, none, 1, 1⟩ (by decide)

/-- Claim C8: for the author of an existing post, a GET to the delete-post
handler renders the confirmation form and changes nothing, while a POST
removes the post (no stored post keeps its id) and redirects to the
author's own profile page. -/
theorem delete_post_author_flow (s : Store) (u : User) (id : Nat) (p : Post)
    (hp : getPost s id = some p) (ha : p.author = u.id) :
    delete_post s u .GET id = (.renderForm "blog/create.html", s)
    ∧ delete_post s u .POST id = (.redirectProfile u.username, s.removePost id)
    ∧ ∀ q ∈ (delete_post s u .POST id).2.posts, q.id ≠ id := by
  have h1 : delete_post s u .GET id = (.renderForm "blog/create.html", s) := by
    unfold delete_post
    rw [hp]
    simp [ha]
  have h2 : delete_post s u .POST id =
      (.redirectProfile u.username, s.removePost id) := by
    unfold delete_post
    rw [hp]
    simp [ha]
  refine ⟨h1, h2, ?_⟩
  rw [h2]
  intro q hq
  have := (List.mem_filter.mp hq).2
  simpa using this

def pC8 : Post := ⟨1, "Mine", "b", 0, false, none, 1, 1⟩

def sC8 : Store :=
  ⟨[⟨1, "alice"⟩],
   [⟨1, "Cat", "cat", true⟩],
   [pC8, ⟨2, "Other", "b", 0, true, none, 1, 1⟩],
   [⟨1, "c", 1, 1⟩, ⟨2, "c", 1, 2⟩],
   3, 3⟩

/-- Claim C8 witness: the theorem applied to a concrete store for the
post's author. -/
theorem delete_post_author_flow_witness :
    delete_post sC8 ⟨1, "alice"⟩ .GET 1 = (.renderForm "blog/create.html", sC8)
    ∧ delete_post sC8 ⟨1, "alice"⟩ .POST 1 =
        (.redirectProfile "alice", sC8.removePost 1)
    ∧ ∀ q ∈ (delete_post sC8 ⟨1, "alice"⟩ .POST 1).2.posts, q.id ≠ 1 :=
  delete_post_author_flow sC8 ⟨1, "alice"⟩ 1 pC8 (by decide) (by decide)

/-- Claim C9: every page produced by a listing handler (global feed,
category feed, profile feed) holds at most `PAGINATOR_PAGES = 10` items, and
the paginator total equals the number of store records matching that
handler's filter. -/
theorem listing_pagination (s : Store) (now : Int) (req : Option Nat)
    (slug username : String) (viewer : Option Nat) :
    (∀ items total, index s now req = .page items total →
        items.length ≤ PAGINATOR_PAGES
        ∧ total = s.posts.countP (indexFilter s now))
    ∧ (∀ items total cat, getPublishedCategory s slug = some cat →
        category_posts s now slug req = .page items total →
        items.length ≤ PAGINATOR_PAGES
        ∧ total = s.posts.countP (categoryFilter cat now))
    ∧ (∀ items total u, getUserByName s username = some u →
        profile s now viewer username req = .page items total →
        items.length ≤ PAGINATOR_PAGES
        ∧ total = s.posts.countP (profileFilter s now viewer u)) := by
  refine ⟨?_, ?_, ?_⟩
  · intro items total h
    obtain ⟨hi, ht⟩ := ListResponse.page.inj h
    subst hi
    subst ht
    exact ⟨getPage_length_le _ _ _, sortDesc_filter_length _ _⟩
  · intro items total cat hcat h
    unfold category_posts at h
    rw [hcat] at h
    obtain ⟨hi, ht⟩ := ListResponse.page.inj h
    subst hi
    subst ht
    exact ⟨getPage_length_le _ _ _, sortDesc_filter_length _ _⟩
  · intro items total u hu h
    unfold profile at h
    rw [hu] at h
    obtain ⟨hi, ht⟩ := ListResponse.page.inj h
    subst hi
    subst ht
    exact ⟨getPage_length_le _ _ _, sortDesc_filter_length _ _⟩

def pC9a : Post := ⟨1, "Newer", "b", 5, true, none, 1, 1⟩

def pC9b : Post := ⟨2, "Older", "b", 3, true, none, 1, 1⟩

def sC9 : Store :=
  ⟨[⟨1, "alice"⟩],
   [⟨1, "Cat", "news", true⟩],
   [pC9b, pC9a],
   [],
   3, 1⟩

/-- Claim C9 witness: the three branches of the theorem applied to a
concrete store whose feeds all contain the two stored posts. -/
theorem listing_pagination_witness :
    ([pC9a, pC9b].length ≤ PAGINATOR_PAGES
      ∧ (2 : Nat) = sC9.posts.countP (indexFilter sC9 9))
    ∧ ([pC9a, pC9b].length ≤ PAGINATOR_PAGES
      ∧ (2 : Nat) = sC9.posts.countP (categoryFilter ⟨1, "Cat", "news", true⟩ 9))
    ∧ ([pC9a, pC9b].length ≤ PAGINATOR_PAGES
      ∧ (2 : Nat) = sC9.posts.countP (profileFilter sC9 9 none ⟨1, "alice"⟩)) :=
  ⟨(listing_pagination sC9 9 none "news" "alice" none).1
      [pC9a, pC9b] 2 (by decide),
   (listing_pagination sC9 9 none "news" "alice" none).2.1
      [pC9a, pC9b] 2 ⟨1, "Cat", "news", true⟩ (by decide) (by decide),
   (listing_pagination sC9 9 none "news" "alice" none).2.2
      [pC9a, pC9b] 2 ⟨1, "alice"⟩ (by decide) (by decide)⟩

/-- Claim C10: the add-comment handler applies no visibility check — for an
existing post that fails the visibility predicate, an authenticated
non-author with valid text still creates a comment (count up by one,
redirect to detail), although the same viewer gets not-found from the
detail view. -/
theorem add_comment_no_visibility_gate (s : Store) (now : Int) (u : User)
    (d : CommentSubmission) (id : Nat) (p : Post) (hp : getPost s id = some p)
    (hne : p.author ≠ u.id) (hv : commentFormValid d = true)
    (hinv : is_visible s now p = false) :
    post_detail s now (some u.id) id = .notFound
    ∧ (add_comment s u (some d) id).1 = .redirectPostDetail id
    ∧ (commentsOf (add_comment s u (some d) id).2 id).length
      = (commentsOf s id).length + 1 := by
  refine ⟨?_, ?_, ?_⟩
  · rw [post_detail_eq s now (some u.id) id p hp]
    have hcond :
        ¬ (is_visible s now p = true ∨ (some u.id : Option Nat) = some p.author) := by
      rintro (hx | hx)
      · rw [hinv] at hx
        exact Bool.false_ne_true hx
      · exact hne (Option.some.inj hx).symm
    rw [if_neg hcond]
  · rw [add_comment_valid_effect s u d id p hp hv]
  · rw [add_comment_valid_effect s u d id p hp hv]
    rw [commentsOf_insertComment s _ id rfl]
    simp

def pC10 : Post := ⟨1, "Hidden", "b", 0, false, none, 1, 1⟩

def sC10 : Store :=
  ⟨[⟨1, "alice"⟩, ⟨2, "bob"⟩],
   [⟨1, "Cat", "cat", true⟩],
   [pC10],
   [],
   2, 1⟩

/-- Claim C10 witness: bob comments on alice's unpublished post although the
detail view hides it from him. -/
theorem add_comment_no_visibility_gate_witness :
    post_detail sC10 5 (some 2) 1 = .notFound
    ∧ (add_comment sC10 ⟨2, "bob"⟩ (some ⟨"hey", none, none⟩) 1).1 =
        .redirectPostDetail 1
    ∧ (commentsOf (add_comment sC10 ⟨2, "bob"⟩ (some ⟨"hey", none, none⟩) 1).2 1).length
      = (commentsOf sC10 1).length + 1 :=
  add_comment_no_visibility_gate sC10 5 ⟨2, "bob"⟩ ⟨"hey", none, none⟩ 1 pC10
    (by decide) (by decide) (by decide) (by decide)

end Blogicum
